import Mathlib

/-!
Verification of the scancode encoder of `vbox_web_control.py`
(virtualbox-web-panel).

The Python module keeps three module-level dictionaries — `KEYCODES`,
`SPECIAL_KEYCODES` and `SHIFT_REQUIRED` — and two pure functions over them,
`text_to_scancodes` and `parse_keys_input`, plus an HTTP route
`/send-keystrokes` that rejects a request when `parse_keys_input` returns an
empty list and otherwise invokes the keyboard-injection command once.

Python dictionaries with string keys are embedded as association lists with
`String` keys (every table has pairwise distinct keys, so first-match lookup
coincides with dictionary lookup).  Characters of the input string are
iterated as in Python (`for ch in text`), and a one-character membership test
against a dictionary becomes a lookup of the one-character string.
-/

set_option autoImplicit false

namespace VboxWebControl

/-- Association-list lookup; models a Python dictionary access `d[k]` /
membership test `k in d` for dictionaries with pairwise distinct keys. -/
def dictGet {α β : Type} [DecidableEq α] (k : α) : List (α × β) → Option β
  | [] => none
  | p :: rest => if p.1 = k then some p.2 else dictGet k rest

/-- The `KEYCODES` dictionary (source lines 14–30): characters mapped to the
make scancode of their physical key, as two-digit lowercase hex strings.
Brace, double-quote, apostrophe and grave-accent keys are written with
escape sequences. -/
def KEYCODES : List (String × String) :=
  [("a", "1e"), ("b", "30"), ("c", "2e"), ("d", "20"), ("e", "12"),
   ("f", "21"), ("g", "22"), ("h", "23"), ("i", "17"), ("j", "24"),
   ("k", "25"), ("l", "26"), ("m", "32"), ("n", "31"), ("o", "18"),
   ("p", "19"), ("q", "10"), ("r", "13"), ("s", "1f"), ("t", "14"),
   ("u", "16"), ("v", "2f"), ("w", "11"), ("x", "2d"), ("y", "15"),
   ("z", "2c"),
   ("0", "0b"), ("1", "02"), ("2", "03"), ("3", "04"), ("4", "05"),
   ("5", "06"), ("6", "07"), ("7", "08"), ("8", "09"), ("9", "0a"),
   (" ", "39"),
   ("-", "0c"), ("=", "0d"), ("[", "1a"), ("]", "1b"), ("\\", "2b"),
   (";", "27"), ("\x27", "28"), ("\x60", "29"), (",", "33"), (".", "34"),
   ("/", "35"),
   ("!", "02"), ("@", "03"), ("#", "04"), ("$", "05"), ("%", "06"),
   ("^", "07"),
   ("&", "08"), ("*", "09"), ("(", "0a"), (")", "0b"), ("_", "0c"),
   ("+", "0d"),
   ("\x7b", "1a"), ("\x7d", "1b"), ("|", "2b"), (":", "27"), ("\x22", "28"),
   ("~", "29"),
   ("<", "33"), (">", "34"), ("?", "35")]

/-- The `SPECIAL_KEYCODES` dictionary (source lines 33–60): lowercase token
names mapped to their full fixed make+break scancode sequences. -/
def SPECIAL_KEYCODES : List (String × List String) :=
  [("backspace", ["0e", "8e"]),
   ("insert", ["e0", "52", "e0", "d2"]),
   ("home", ["e0", "47", "e0", "c7"]),
   ("end", ["e0", "4f", "e0", "cf"]),
   ("pageup", ["e0", "49", "e0", "c9"]),
   ("pagedown", ["e0", "51", "e0", "d1"]),
   ("left", ["e0", "4b", "e0", "cb"]),
   ("right", ["e0", "4d", "e0", "cd"]),
   ("up", ["e0", "48", "e0", "c8"]),
   ("down", ["e0", "50", "e0", "d0"]),
   ("ctrl", ["1d", "9d"]),
   ("strg", ["1d", "9d"]),
   ("shift", ["2a", "aa"]),
   ("alt", ["38", "b8"]),
   ("win", ["e0", "5b", "e0", "db"]),
   ("windows", ["e0", "5b", "e0", "db"]),
   ("esc", ["01", "81"]),
   ("escape", ["01", "81"]),
   ("enter", ["1c", "9c"]),
   ("return", ["1c", "9c"]),
   ("tab", ["0f", "8f"]),
   ("capslock", ["3a", "ba"]),
   ("f1", ["3b", "bb"]), ("f2", ["3c", "bc"]), ("f3", ["3d", "bd"]),
   ("f4", ["3e", "be"]),
   ("f5", ["3f", "bf"]), ("f6", ["40", "c0"]), ("f7", ["41", "c1"]),
   ("f8", ["42", "c2"]),
   ("f9", ["43", "c3"]), ("f10", ["44", "c4"]), ("f11", ["57", "d7"]),
   ("f12", ["58", "d8"]),
   ("del", ["53", "d3"]), ("delete", ["53", "d3"])]

/-- The `SHIFT_REQUIRED` dictionary (source lines 63–69): shifted characters
mapped to the string the code looks up in `KEYCODES` as the unshifted base.
Note that the last five symbol entries map to two-digit scancode strings,
not to base characters, exactly as in the source.  The Python code then
updates the dictionary with the 26 pairs `'A' ↦ 'a'` … `'Z' ↦ 'z'`, written
out explicitly here. -/
def SHIFT_REQUIRED : List (String × String) :=
  [("!", "1"), ("@", "2"), ("#", "3"), ("$", "4"), ("%", "5"), ("^", "6"),
   ("&", "7"), ("*", "8"), ("(", "9"), (")", "0"),
   ("_", "-"), ("+", "="), ("\x7b", "["), ("\x7d", "]"), ("|", "\\"),
   (":", ";"), ("\x22", "28"), ("~", "29"), ("<", "33"), (">", "34"),
   ("?", "35"),
   ("A", "a"), ("B", "b"), ("C", "c"), ("D", "d"), ("E", "e"), ("F", "f"),
   ("G", "g"), ("H", "h"), ("I", "i"), ("J", "j"), ("K", "k"), ("L", "l"),
   ("M", "m"), ("N", "n"), ("O", "o"), ("P", "p"), ("Q", "q"), ("R", "r"),
   ("S", "s"), ("T", "t"), ("U", "u"), ("V", "v"), ("W", "w"), ("X", "x"),
   ("Y", "y"), ("Z", "z")]

/-- Uppercase-to-lowercase character map used to model Python's
`ch.isupper()` and `ch.lower()`.  It holds the 26 ASCII letters and U+212A
(the Kelvin sign), the only non-ASCII cased character whose one-character
lowercase form is a `KEYCODES` key.  Any other cased character is dropped by
the code on every path — in the `isupper` branch its lowercase form is
absent from `KEYCODES`, and in the fallthrough branch the character itself
is absent — so restricting the map to these 27 entries does not change the
output of any function modelled here. -/
def LOWER_MAP : List (Char × Char) :=
  [('A', 'a'), ('B', 'b'), ('C', 'c'), ('D', 'd'), ('E', 'e'), ('F', 'f'),
   ('G', 'g'), ('H', 'h'), ('I', 'i'), ('J', 'j'), ('K', 'k'), ('L', 'l'),
   ('M', 'm'), ('N', 'n'), ('O', 'o'), ('P', 'p'), ('Q', 'q'), ('R', 'r'),
   ('S', 's'), ('T', 't'), ('U', 'u'), ('V', 'v'), ('W', 'w'), ('X', 'x'),
   ('Y', 'y'), ('Z', 'z'), (Char.ofNat 0x212A, 'k')]

/-- Python `ch.isupper()` restricted as described at `LOWER_MAP`. -/
def pyIsUpper (c : Char) : Bool :=
  (dictGet c LOWER_MAP).isSome

/-- Python `ch.lower()` for a single character, restricted as described at
`LOWER_MAP`; characters outside the map are returned unchanged. -/
def pyLower (c : Char) : Char :=
  (dictGet c LOWER_MAP).getD c

/-- Python `s.lower()` on a string, applied characterwise. -/
def pyLowerStr (s : String) : String :=
  String.mk (s.data.map pyLower)

/-- Value of one lowercase hexadecimal digit, as used by `int(s, 16)` on the
lowercase two-digit scancode strings stored in the tables. -/
def hexDigitVal (c : Char) : Nat :=
  if c.isDigit then c.toNat - 48 else c.toNat - 87

/-- Python `int(s, 16)` on the lowercase hexadecimal strings stored in the
tables. -/
def intHex (s : String) : Nat :=
  s.data.foldl (fun a c => 16 * a + hexDigitVal c) 0

/-- Python `format(n, 'x')`: lowercase hexadecimal rendering of a natural
number without padding. -/
def pyFormatX (n : Nat) : String :=
  String.mk (Nat.toDigits 16 n)

/-- The body of the per-character loop of `text_to_scancodes`
(source lines 83–100): the scancodes contributed by one character of the
input text. -/
def charScancodes (ch : Char) : List String :=
  match dictGet (String.mk [ch]) SHIFT_REQUIRED with
  | some base =>
    match dictGet base KEYCODES with
    | none => []
    | some sc => ["2a", sc, pyFormatX (intHex sc + 0x80), "aa"]
  | none =>
    if pyIsUpper ch then
      match dictGet (String.mk [pyLower ch]) KEYCODES with
      | none => []
      | some sc => ["2a", sc, pyFormatX (intHex sc + 0x80), "aa"]
    else
      match dictGet (String.mk [ch]) KEYCODES with
      | none => []
      | some sc => [sc, pyFormatX (intHex sc + 0x80)]

/-- `text_to_scancodes` (source lines 71–101): concatenation of the
per-character scancode contributions, left to right. -/
def text_to_scancodes (text : String) : List String :=
  text.data.flatMap charScancodes

/-- One pass of `re.split(r'(<[^>]+>)', input_str)` over the character list.
`acc` is the reversed current literal run; the match of the regular
expression at a `<` is the text up to and including the first following `>`,
provided at least one character stands between them.  The first argument is
fuel bounding the recursion depth; each step consumes at least one input
character, so fuel equal to the input length (as passed by
`parse_keys_input`) never runs out, and the fuel-exhausted arm is
unreachable. -/
def splitGo : Nat → List Char → List Char → List String
  | _, acc, [] => [String.mk acc.reverse]
  | 0, acc, rest => [String.mk (acc.reverse ++ rest)]
  | fuel + 1, acc, c :: rest =>
    if c = '<' then
      match rest.dropWhile (fun d => d != '>') with
      | [] => [String.mk (acc.reverse ++ c :: rest)]
      | _ :: rest2 =>
        let interior := rest.takeWhile (fun d => d != '>')
        if interior = [] then
          splitGo fuel (c :: acc) rest
        else
          String.mk acc.reverse ::
            String.mk (c :: (interior ++ ['>'])) :: splitGo fuel [] rest2
    else
      splitGo fuel (c :: acc) rest

/-- Python `token.startswith("<")`. -/
def tokStartsLt (token : String) : Bool :=
  match token.data with
  | c :: _ => c = '<'
  | [] => false

/-- Python `token.endswith(">")`. -/
def tokEndsGt (token : String) : Bool :=
  match token.data.getLast? with
  | some c => c = '>'
  | none => false

/-- The body of the per-token loop of `parse_keys_input`
(source lines 115–123): expansion of one segment produced by the split.
`token.data.tail.dropLast` is Python `token[1:-1]`. -/
def expandToken (token : String) : List String :=
  if token.data = [] then []
  else if tokStartsLt token && tokEndsGt token then
    match dictGet (pyLowerStr (String.mk token.data.tail.dropLast)) SPECIAL_KEYCODES with
    | some seq => seq
    | none => []
  else
    text_to_scancodes token

/-- `parse_keys_input` (source lines 103–124): split the input on bracket
tokens, keeping the delimited tokens, and expand every segment. -/
def parse_keys_input (input_str : String) : List String :=
  (splitGo input_str.data.length [] input_str.data).flatMap expandToken

/-- Outcome of the `/send-keystrokes` route (source lines 608–635), up to
the success or failure of the external process: either one of the two 400
rejections (missing `keys` parameter; empty scancode list, message
"Unable to convert input string to scancodes.") or exactly one invocation of
`run_vboxmanage_command` with the given argument list. -/
inductive SendKeysResponse : Type
  | missingKeys : SendKeysResponse
  | unableToConvert : SendKeysResponse
  | inject : List String → SendKeysResponse
deriving DecidableEq

/-- The `/send-keystrokes` route handler (source lines 608–635): `vmParam`
and `keysParam` are the first values of the `vm` and `keys` query
parameters, when present; `vm` defaults to `"myVM"`. -/
def send_keystrokes (vmParam : Option String) (keysParam : Option String) :
    SendKeysResponse :=
  let vm := vmParam.getD "myVM"
  match keysParam with
  | none => SendKeysResponse.missingKeys
  | some keys =>
    let scancodes := parse_keys_input keys
    if scancodes = [] then SendKeysResponse.unableToConvert
    else SendKeysResponse.inject (["controlvm", vm, "keyboardputscancode"] ++ scancodes)

/-- A string denoting one scancode byte: exactly two lowercase hexadecimal
digits, hence a value in `0x00`–`0xFF`. -/
def isHexByte (s : String) : Bool :=
  s.data.length == 2 &&
    s.data.all (fun c => c.isDigit || ('a' ≤ c && c ≤ 'f')) &&
    decide (intHex s < 256)

/-! ## Basic lemmas about the embedding -/

theorem data_mk (l : List Char) : (String.mk l).data = l := rfl

theorem text_to_scancodes_mk (l : List Char) :
    text_to_scancodes (String.mk l) = l.flatMap charScancodes := rfl

theorem mem_map_snd_of_dictGet {α β : Type} [DecidableEq α] {k : α}
    {l : List (α × β)} {v : β} (h : dictGet k l = some v) :
    v ∈ l.map Prod.snd := by
  induction l with
  | nil => simp [dictGet] at h
  | cons p rest ih =>
    rw [dictGet] at h
    by_cases hp : p.1 = k
    · simp [hp] at h
      simp [h]
    · simp [hp] at h
      simp [ih h]

/-- Every value stored in `KEYCODES` is a scancode byte, and so is the break
code the program derives from it by adding `0x80`. -/
theorem keycodes_values_hexByte :
    ∀ v ∈ KEYCODES.map Prod.snd,
      (isHexByte v && isHexByte (pyFormatX (intHex v + 0x80))) = true := by
  decide

/-- Every element of every sequence stored in `SPECIAL_KEYCODES` is a
scancode byte. -/
theorem special_keycodes_values_hexByte :
    ∀ l ∈ SPECIAL_KEYCODES.map Prod.snd, ∀ e ∈ l, isHexByte e = true := by
  decide

/-- Branch equation: shifted character whose base string has a keycode. -/
theorem charScancodes_shift_hit {c : Char} {base sc : String}
    (h1 : dictGet (String.mk [c]) SHIFT_REQUIRED = some base)
    (h2 : dictGet base KEYCODES = some sc) :
    charScancodes c = ["2a", sc, pyFormatX (intHex sc + 0x80), "aa"] := by
  simp [charScancodes, h1, h2]

/-- Branch equation: shifted character whose base string has no keycode. -/
theorem charScancodes_shift_miss {c : Char} {base : String}
    (h1 : dictGet (String.mk [c]) SHIFT_REQUIRED = some base)
    (h2 : dictGet base KEYCODES = none) :
    charScancodes c = [] := by
  simp [charScancodes, h1, h2]

/-- Branch equation: uppercase character whose lowercase form has a
keycode. -/
theorem charScancodes_upper_hit {c : Char} {sc : String}
    (h1 : dictGet (String.mk [c]) SHIFT_REQUIRED = none)
    (h2 : pyIsUpper c = true)
    (h3 : dictGet (String.mk [pyLower c]) KEYCODES = some sc) :
    charScancodes c = ["2a", sc, pyFormatX (intHex sc + 0x80), "aa"] := by
  simp [charScancodes, h1, h2, h3]

/-- Branch equation: uppercase character whose lowercase form has no
keycode. -/
theorem charScancodes_upper_miss {c : Char}
    (h1 : dictGet (String.mk [c]) SHIFT_REQUIRED = none)
    (h2 : pyIsUpper c = true)
    (h3 : dictGet (String.mk [pyLower c]) KEYCODES = none) :
    charScancodes c = [] := by
  simp [charScancodes, h1, h2, h3]

/-- Branch equation: plain character present in `KEYCODES`. -/
theorem charScancodes_plain_hit {c : Char} {sc : String}
    (h1 : dictGet (String.mk [c]) SHIFT_REQUIRED = none)
    (h2 : pyIsUpper c = false)
    (h3 : dictGet (String.mk [c]) KEYCODES = some sc) :
    charScancodes c = [sc, pyFormatX (intHex sc + 0x80)] := by
  simp [charScancodes, h1, h2, h3]

/-- Branch equation: character absent from every table. -/
theorem charScancodes_plain_miss {c : Char}
    (h1 : dictGet (String.mk [c]) SHIFT_REQUIRED = none)
    (h2 : pyIsUpper c = false)
    (h3 : dictGet (String.mk [c]) KEYCODES = none) :
    charScancodes c = [] := by
  simp [charScancodes, h1, h2, h3]

/-- Every string contributed by one character of a literal text run is a
scancode byte. -/
theorem charScancodes_hexByte {c : Char} {e : String}
    (h : e ∈ charScancodes c) : isHexByte e = true := by
  have hkv : ∀ sc : String, ∀ b : String, dictGet b KEYCODES = some sc →
      isHexByte sc = true ∧ isHexByte (pyFormatX (intHex sc + 0x80)) = true := by
    intro sc b hb
    have := keycodes_values_hexByte sc (mem_map_snd_of_dictGet hb)
    exact And.imp id id (by simpa using this)
  cases hs : dictGet (String.mk [c]) SHIFT_REQUIRED with
  | some base =>
    cases hk : dictGet base KEYCODES with
    | none => rw [charScancodes_shift_miss hs hk] at h; simp at h
    | some sc =>
      rw [charScancodes_shift_hit hs hk] at h
      have hgood := hkv sc base hk
      simp at h
      rcases h with rfl | rfl | rfl | rfl
      · decide
      · exact hgood.1
      · exact hgood.2
      · decide
  | none =>
    cases hu : pyIsUpper c with
    | true =>
      cases hk : dictGet (String.mk [pyLower c]) KEYCODES with
      | none => rw [charScancodes_upper_miss hs hu hk] at h; simp at h
      | some sc =>
        rw [charScancodes_upper_hit hs hu hk] at h
        have hgood := hkv sc _ hk
        simp at h
        rcases h with rfl | rfl | rfl | rfl
        · decide
        · exact hgood.1
        · exact hgood.2
        · decide
    | false =>
      cases hk : dictGet (String.mk [c]) KEYCODES with
      | none => rw [charScancodes_plain_miss hs hu hk] at h; simp at h
      | some sc =>
        rw [charScancodes_plain_hit hs hu hk] at h
        have hgood := hkv sc _ hk
        simp at h
        rcases h with rfl | rfl
        · exact hgood.1
        · exact hgood.2

/-- A character whose per-character contribution is empty can be removed
from a text run without changing the output. -/
theorem text_skip_of_charScancodes_nil {c : Char} (hc : charScancodes c = [])
    (s1 s2 : List Char) :
    text_to_scancodes (String.mk (s1 ++ c :: s2)) =
      text_to_scancodes (String.mk (s1 ++ s2)) := by
  simp [text_to_scancodes_mk, List.flatMap_append, List.flatMap_cons, hc]

/-- `takeWhile` stops exactly at the `>` terminating a bracket token. -/
theorem takeWhile_bracket {name : List Char} (h : '>' ∉ name) (t : List Char) :
    (name ++ '>' :: t).takeWhile (fun d => d != '>') = name := by
  induction name with
  | nil => simp [List.takeWhile_cons]
  | cons c cs ih =>
    have hc : c ≠ '>' := by
      intro he
      exact h (by simp [he])
    have hcs : '>' ∉ cs := fun hm => h (List.mem_cons_of_mem _ hm)
    simp only [List.cons_append, List.takeWhile_cons]
    simp [bne_iff_ne, hc, ih hcs]

/-- `dropWhile` lands exactly on the `>` terminating a bracket token. -/
theorem dropWhile_bracket {name : List Char} (h : '>' ∉ name) (t : List Char) :
    (name ++ '>' :: t).dropWhile (fun d => d != '>') = '>' :: t := by
  induction name with
  | nil => simp [List.dropWhile_cons]
  | cons c cs ih =>
    have hc : c ≠ '>' := by
      intro he
      exact h (by simp [he])
    have hcs : '>' ∉ cs := fun hm => h (List.mem_cons_of_mem _ hm)
    simp only [List.cons_append, List.dropWhile_cons]
    simp [bne_iff_ne, hc, ih hcs]

/-- The split of an exhausted input is the pending literal segment. -/
theorem splitGo_nil (fuel : Nat) (acc : List Char) :
    splitGo fuel acc [] = [String.mk acc.reverse] := by
  cases fuel <;> rfl

/-- On an input that is exactly one well-formed bracket token, the split
produces an empty segment, the token, and an empty segment, matching
`re.split` with a captured group. -/
theorem splitGo_bracket {name : List Char} (h1 : name ≠ []) (h2 : '>' ∉ name)
    (fuel : Nat) :
    splitGo (fuel + 1) [] ('<' :: (name ++ ['>'])) =
      ["", String.mk ('<' :: (name ++ ['>'])), ""] := by
  have hd : (name ++ ['>']).dropWhile (fun d => d != '>') = '>' :: [] :=
    dropWhile_bracket h2 []
  have ht : (name ++ ['>']).takeWhile (fun d => d != '>') = name :=
    takeWhile_bracket h2 []
  rw [splitGo]
  rw [if_pos rfl, hd]
  simp only [ht, if_neg h1]
  rw [splitGo_nil]
  rfl

/-- A token of the shape `<name>` starts with `<`. -/
theorem tokStartsLt_bracket (l : List Char) :
    tokStartsLt (String.mk ('<' :: l)) = true := by
  simp [tokStartsLt, data_mk]

/-- A token ending in `>` satisfies the suffix test. -/
theorem tokEndsGt_concat (l : List Char) :
    tokEndsGt (String.mk (l ++ ['>'])) = true := by
  simp [tokEndsGt, data_mk, List.getLast?_concat]

/-- Expansion of a single well-formed bracket token: strip the delimiters,
lowercase the interior, look it up in `SPECIAL_KEYCODES`; an unknown name
contributes nothing. -/
theorem expandToken_bracket {name : List Char} :
    expandToken (String.mk ('<' :: (name ++ ['>']))) =
      (dictGet (pyLowerStr (String.mk name)) SPECIAL_KEYCODES).getD [] := by
  rw [expandToken]
  have hne : ¬((String.mk ('<' :: (name ++ ['>']))).data = []) := by
    simp [data_mk]
  rw [if_neg hne]
  have hcond : (tokStartsLt (String.mk ('<' :: (name ++ ['>']))) &&
      tokEndsGt (String.mk ('<' :: (name ++ ['>'])))) = true := by
    rw [show ('<' :: (name ++ ['>'])) = '<' :: (name ++ ['>']) from rfl]
    rw [tokStartsLt_bracket]
    rw [show String.mk ('<' :: (name ++ ['>'])) =
      String.mk (('<' :: name) ++ ['>']) by simp]
    rw [tokEndsGt_concat]
    rfl
  rw [if_pos hcond]
  simp only [data_mk, List.tail_cons, List.dropLast_concat]
  cases dictGet (pyLowerStr (String.mk name)) SPECIAL_KEYCODES <;> rfl

/-- `parse_keys_input` on a single well-formed bracket token. -/
theorem parse_keys_input_bracket {name : List Char} (h1 : name ≠ [])
    (h2 : '>' ∉ name) :
    parse_keys_input (String.mk ('<' :: (name ++ ['>']))) =
      (dictGet (pyLowerStr (String.mk name)) SPECIAL_KEYCODES).getD [] := by
  have hlen : (String.mk ('<' :: (name ++ ['>']))).data.length =
      (name.length + 1) + 1 := by
    simp [data_mk]
  rw [parse_keys_input, hlen, splitGo_bracket h1 h2]
  rw [List.flatMap_cons, List.flatMap_cons, List.flatMap_cons]
  rw [expandToken_bracket]
  have hempty : expandToken "" = [] := rfl
  rw [hempty]
  simp

/-- Every value in `LOWER_MAP` is a fixed point of `pyLower` and differs
from `'>'`. -/
theorem lower_map_values_fixed :
    ∀ v ∈ LOWER_MAP.map Prod.snd, pyLower v = v ∧ v ≠ '>' := by
  decide

/-- `pyLower` is idempotent. -/
theorem pyLower_idem (c : Char) : pyLower (pyLower c) = pyLower c := by
  cases h : dictGet c LOWER_MAP with
  | none =>
    have hc : pyLower c = c := by rw [pyLower, h]; rfl
    rw [hc, hc]
  | some d =>
    have hd := (lower_map_values_fixed d (mem_map_snd_of_dictGet h)).1
    have hc : pyLower c = d := by rw [pyLower, h]; rfl
    rw [hc, hd]

/-- `pyLower` maps no character other than `'>'` to `'>'`. -/
theorem pyLower_eq_gt {c : Char} (h : pyLower c = '>') : c = '>' := by
  cases hd : dictGet c LOWER_MAP with
  | none => rw [pyLower, hd] at h; exact h
  | some d =>
    have := (lower_map_values_fixed d (mem_map_snd_of_dictGet hd)).2
    rw [pyLower, hd] at h
    exact absurd h this

/-! ## Claim theorems -/

/-- Claim C1, counterexample: the double-quote character (U+0022) is a key
of the Shift table, yet `text_to_scancodes` on its one-character string
returns the empty list instead of a 4-element Shift-wrapped sequence,
because its Shift-table entry is the scancode string `"28"`, which is not a
key of the character table. -/
theorem claim1_counterexample :
    dictGet (String.mk [Char.ofNat 34]) SHIFT_REQUIRED = some "28" ∧
    text_to_scancodes (String.mk [Char.ofNat 34]) = [] := by
  decide

/-- Claim C1, amended: for every character whose Shift-table entry is itself
a key of the character table (this includes every uppercase ASCII letter,
whose entry is its lowercase form), `text_to_scancodes` on the one-character
string produces exactly `["2a", base-make, base-break, "aa"]` with
`base-break = base-make + 0x80` in lowercase hex. -/
theorem claim1_shift_wrapped (c : Char) (b sc : String)
    (h1 : dictGet (String.mk [c]) SHIFT_REQUIRED = some b)
    (h2 : dictGet b KEYCODES = some sc) :
    text_to_scancodes (String.mk [c]) =
      ["2a", sc, pyFormatX (intHex sc + 0x80), "aa"] := by
  rw [text_to_scancodes_mk, List.flatMap_cons, charScancodes_shift_hit h1 h2]
  simp

/-- Claim C1, witness: the uppercase letter A. -/
theorem claim1_witness :
    dictGet (String.mk ['A']) SHIFT_REQUIRED = some "a" ∧
    dictGet "a" KEYCODES = some "1e" ∧
    text_to_scancodes (String.mk ['A']) =
      ["2a", "1e", pyFormatX (intHex "1e" + 0x80), "aa"] :=
  ⟨by decide, by decide, claim1_shift_wrapped 'A' "a" "1e" (by decide) (by decide)⟩

/-- Claim C2: every character that is a key of the character table, is not a
key of the Shift table and is not uppercase produces exactly the pair
`[make, break]` with `break = make + 0x80` in lowercase hex. -/
theorem claim2_plain_pair (c : Char) (sc : String)
    (h1 : dictGet (String.mk [c]) SHIFT_REQUIRED = none)
    (h2 : pyIsUpper c = false)
    (h3 : dictGet (String.mk [c]) KEYCODES = some sc) :
    text_to_scancodes (String.mk [c]) = [sc, pyFormatX (intHex sc + 0x80)] := by
  rw [text_to_scancodes_mk, List.flatMap_cons, charScancodes_plain_hit h1 h2 h3]
  simp

/-- Claim C2, witness: the lowercase letter a. -/
theorem claim2_witness :
    dictGet (String.mk ['a']) SHIFT_REQUIRED = none ∧
    pyIsUpper 'a' = false ∧
    dictGet (String.mk ['a']) KEYCODES = some "1e" ∧
    text_to_scancodes (String.mk ['a']) = ["1e", pyFormatX (intHex "1e" + 0x80)] :=
  ⟨by decide, by decide, by decide,
    claim2_plain_pair 'a' "1e" (by decide) (by decide) (by decide)⟩

/-- Claim C3: a bracket token whose interior name, lowercased, is a key of
the Special Key Table expands to that entry verbatim, an unknown name
expands to nothing, and in particular the enter, f5 and unknownkey examples
hold. -/
theorem claim3_special_tokens :
    (∀ name : List Char, name ≠ [] → '>' ∉ name →
      parse_keys_input (String.mk ('<' :: (name ++ ['>']))) =
        (dictGet (pyLowerStr (String.mk name)) SPECIAL_KEYCODES).getD []) ∧
    parse_keys_input "<enter>" = ["1c", "9c"] ∧
    parse_keys_input "<f5>" = ["3f", "bf"] ∧
    parse_keys_input "<unknownkey>" = [] :=
  ⟨fun _ h1 h2 => parse_keys_input_bracket h1 h2, by decide, by decide, by decide⟩

/-- Claim C3, witness: the tab token. -/
theorem claim3_witness :
    parse_keys_input (String.mk ('<' :: (['t', 'a', 'b'] ++ ['>']))) =
      (dictGet (pyLowerStr (String.mk ['t', 'a', 'b'])) SPECIAL_KEYCODES).getD [] :=
  claim3_special_tokens.1 ['t', 'a', 'b'] (by decide) (by decide)

/-- Claim C4: the input Ab encodes as the Shift-wrapped sequence for a
followed by the plain pair for b, concatenated in input order. -/
theorem claim4_shift_then_plain :
    parse_keys_input "Ab" = ["2a", "1e", "9e", "aa", "30", "b0"] := by
  decide

/-- Claim C5: a character absent from the Shift table, not uppercase and
absent from the character table contributes zero scancodes, and the rest of
the string is still processed; the function is total by construction. -/
theorem claim5_unencodable_dropped (s1 s2 : List Char) (c : Char)
    (h1 : dictGet (String.mk [c]) SHIFT_REQUIRED = none)
    (h2 : pyIsUpper c = false)
    (h3 : dictGet (String.mk [c]) KEYCODES = none) :
    text_to_scancodes (String.mk (s1 ++ c :: s2)) =
      text_to_scancodes (String.mk (s1 ++ s2)) :=
  text_skip_of_charScancodes_nil (charScancodes_plain_miss h1 h2 h3) s1 s2

/-- Claim C5, witness: the euro sign (U+20AC) between a and b. -/
theorem claim5_witness :
    dictGet (String.mk [Char.ofNat 0x20AC]) SHIFT_REQUIRED = none ∧
    pyIsUpper (Char.ofNat 0x20AC) = false ∧
    dictGet (String.mk [Char.ofNat 0x20AC]) KEYCODES = none ∧
    text_to_scancodes (String.mk (['a'] ++ Char.ofNat 0x20AC :: ['b'])) =
      text_to_scancodes (String.mk (['a'] ++ ['b'])) :=
  ⟨by decide, by decide, by decide,
    claim5_unencodable_dropped ['a'] ['b'] (Char.ofNat 0x20AC)
      (by decide) (by decide) (by decide)⟩

/-- Claim C6: the empty input parses to the empty list, and the
send-keystrokes route answers the unable-to-convert rejection exactly when
the parsed scancode list is empty; otherwise it performs exactly one
injection invocation whose trailing arguments are the scancodes in order. -/
theorem claim6_empty_rejection :
    parse_keys_input "" = [] ∧
    ∀ (vmParam : Option String) (keys : String),
      (send_keystrokes vmParam (some keys) = SendKeysResponse.unableToConvert ↔
        parse_keys_input keys = []) ∧
      (parse_keys_input keys ≠ [] →
        send_keystrokes vmParam (some keys) =
          SendKeysResponse.inject
            (["controlvm", vmParam.getD "myVM", "keyboardputscancode"] ++
              parse_keys_input keys)) := by
  refine ⟨by decide, fun vmParam keys => ?_⟩
  by_cases hp : parse_keys_input keys = []
  · exact ⟨⟨fun _ => hp, fun _ => by simp [send_keystrokes, hp]⟩,
      fun hne => absurd hp hne⟩
  · refine ⟨⟨fun h => ?_, fun h => absurd h hp⟩, fun _ => by simp [send_keystrokes, hp]⟩
    exfalso
    rw [send_keystrokes] at h
    simp only [if_neg hp] at h
    exact SendKeysResponse.noConfusion h

/-- Claim C6, witness: a nonempty parse leads to one injection. -/
theorem claim6_witness :
    parse_keys_input "a" ≠ [] ∧
    send_keystrokes none (some "a") =
      SendKeysResponse.inject
        (["controlvm", (none : Option String).getD "myVM",
          "keyboardputscancode"] ++ parse_keys_input "a") :=
  ⟨by decide, (claim6_empty_rejection.2 none "a").2 (by decide)⟩

/-- Claim C7: every element of the list returned by `parse_keys_input` is a
two-character lowercase hexadecimal string denoting a byte below 0x100. -/
theorem claim7_output_hex_bytes (s : String) (e : String)
    (h : e ∈ parse_keys_input s) : isHexByte e = true := by
  rw [parse_keys_input, List.mem_flatMap] at h
  obtain ⟨t, _, ht⟩ := h
  rw [expandToken] at ht
  by_cases h0 : t.data = []
  · rw [if_pos h0] at ht
    simp at ht
  · rw [if_neg h0] at ht
    by_cases hb : (tokStartsLt t && tokEndsGt t) = true
    · rw [if_pos hb] at ht
      have hm : (match
          dictGet (pyLowerStr (String.mk t.data.tail.dropLast)) SPECIAL_KEYCODES with
          | some seq => seq
          | none => []) =
          (dictGet (pyLowerStr (String.mk t.data.tail.dropLast))
            SPECIAL_KEYCODES).getD [] := by
        cases dictGet (pyLowerStr (String.mk t.data.tail.dropLast)) SPECIAL_KEYCODES <;>
          rfl
      rw [hm] at ht
      cases hk : dictGet (pyLowerStr (String.mk t.data.tail.dropLast))
          SPECIAL_KEYCODES with
      | none =>
        rw [hk] at ht
        simp at ht
      | some seq =>
        rw [hk] at ht
        simp only [Option.getD_some] at ht
        exact special_keycodes_values_hexByte seq (mem_map_snd_of_dictGet hk) e ht
    · rw [if_neg hb] at ht
      rw [text_to_scancodes, List.mem_flatMap] at ht
      obtain ⟨c, _, hc⟩ := ht
      exact charScancodes_hexByte hc

/-- Claim C7, witness: the Shift make code emitted for A. -/
theorem claim7_witness :
    ("2a" ∈ parse_keys_input "A") ∧ isHexByte "2a" = true :=
  ⟨by decide, claim7_output_hex_bytes "A" "2a" (by decide)⟩

/-- Claim C8: the five synonym token pairs encode identically, and bracket
token lookup is case-insensitive: lowering the interior name characterwise
does not change the parse. -/
theorem claim8_synonyms_case_insensitive :
    parse_keys_input "<strg>" = parse_keys_input "<ctrl>" ∧
    parse_keys_input "<windows>" = parse_keys_input "<win>" ∧
    parse_keys_input "<escape>" = parse_keys_input "<esc>" ∧
    parse_keys_input "<return>" = parse_keys_input "<enter>" ∧
    parse_keys_input "<delete>" = parse_keys_input "<del>" ∧
    ∀ name : List Char, name ≠ [] → '>' ∉ name →
      parse_keys_input (String.mk ('<' :: (name ++ ['>']))) =
        parse_keys_input (String.mk ('<' :: (name.map pyLower ++ ['>']))) := by
  refine ⟨by decide, by decide, by decide, by decide, by decide, ?_⟩
  intro name h1 h2
  have h1m : name.map pyLower ≠ [] := by simpa using h1
  have h2m : '>' ∉ name.map pyLower := by
    intro hm
    rw [List.mem_map] at hm
    obtain ⟨c, hc, he⟩ := hm
    exact h2 ((pyLower_eq_gt he) ▸ hc)
  rw [parse_keys_input_bracket h1 h2, parse_keys_input_bracket h1m h2m]
  have hl : pyLowerStr (String.mk (name.map pyLower)) = pyLowerStr (String.mk name) := by
    rw [pyLowerStr, pyLowerStr, data_mk, data_mk, List.map_map]
    exact congrArg String.mk (List.map_congr_left fun c _ => pyLower_idem c)
  rw [hl]

/-- Claim C8, witness: the mixed-case spelling of the ctrl token. -/
theorem claim8_witness :
    parse_keys_input (String.mk ('<' :: (['C', 't', 'r', 'l'] ++ ['>']))) =
      parse_keys_input
        (String.mk ('<' :: (['C', 't', 'r', 'l'].map pyLower ++ ['>']))) :=
  claim8_synonyms_case_insensitive.2.2.2.2.2 ['C', 't', 'r', 'l']
    (by decide) (by decide)

/-- Claim C9: the encoder is deterministic and order-stable: in any sequence
of requests, two requests with identical input strings receive identical
output lists. -/
theorem claim9_deterministic (reqs : List String) (i j : Nat)
    (hi : i < reqs.length) (hj : j < reqs.length)
    (h : reqs.get ⟨i, hi⟩ = reqs.get ⟨j, hj⟩) :
    (reqs.map parse_keys_input).get ⟨i, by simpa using hi⟩ =
      (reqs.map parse_keys_input).get ⟨j, by simpa using hj⟩ := by
  simp only [List.get_eq_getElem, List.getElem_map] at h ⊢
  exact congrArg parse_keys_input h

/-- Claim C9, witness: two identical requests in one batch. -/
theorem claim9_witness :
    (["ab", "ab"].map parse_keys_input).get ⟨0, by decide⟩ =
      (["ab", "ab"].map parse_keys_input).get ⟨1, by decide⟩ :=
  claim9_deterministic ["ab", "ab"] 0 1 (by decide) (by decide) (by decide)

/-- Claim C10: each of the five characters double-quote, tilde, less-than,
greater-than and question mark has a direct character-table entry, yet
encodes to the empty list, and contributes zero scancodes inside any text
run, because its Shift-table entry is a scancode string with no
character-table key. -/
theorem claim10_shift_scancode_entries_dropped (c : Char)
    (h : c ∈ [Char.ofNat 34, '~', '<', '>', '?']) :
    (dictGet (String.mk [c]) KEYCODES).isSome = true ∧
    text_to_scancodes (String.mk [c]) = [] ∧
    ∀ s1 s2 : List Char,
      text_to_scancodes (String.mk (s1 ++ c :: s2)) =
        text_to_scancodes (String.mk (s1 ++ s2)) := by
  fin_cases h <;>
    exact ⟨by decide, by decide,
      fun s1 s2 => text_skip_of_charScancodes_nil (by decide) s1 s2⟩

/-- Claim C10, witness: the tilde character. -/
theorem claim10_witness : text_to_scancodes (String.mk ['~']) = [] :=
  (claim10_shift_scancode_entries_dropped '~' (by decide)).2.1

end VboxWebControl
